import Mathlib

/-!
Shallow embedding of the rf433pico library (`rf433pico.py`): the protocol
catalog, the receiver's edge-capture callback (`RFReceiver._callback`) and
waveform decoder (`RFReceiver._waveform`), the listener registry and
dispatcher (`RFReceiver.add_listener` / `RFReceiver._notify`), and the
transmitter (`RFTransmitter.send_code` / `send_binary` / `send_l0` /
`send_l1` / `send_sync` / `send_waveform` / `enable`).

Modelling conventions:
* Python machine-independent ints are `Int` (timestamps, durations) or
  `Nat` (codes, counters).  `int(a / b)` on two nonnegative-or-any ints is
  truncation toward zero, i.e. `Int.tdiv`.
* The float comparison `abs(x) < delay * tolerance / 100` is modelled
  exactly over the integers by cross-multiplication:
  `100 * |x| < delay * tolerance`.
* Python exceptions (`IndexError`, `AttributeError`, `OSError`) are
  modelled with `Except String`.
* `micropython.schedule(self._notify, None)` is modelled by incrementing a
  `pendingNotify` counter in the receiver state.
* Each pair of pin drives `gpio.value(1)` / `gpio.value(0)` performed by
  `send_waveform` is observable as the two emitted segment durations
  (high-phase, low-phase); an empty emitted list means the pin was never
  driven.
-/

namespace RF433

/-- The `Protocol` namedtuple of the source: base pulse unit plus six
timing ratios. -/
structure Protocol where
  pulse_length : Int
  sync_high : Int
  sync_low : Int
  zero_high : Int
  zero_low : Int
  one_high : Int
  one_low : Int
deriving Repr, DecidableEq

/-- The global `PROTOCOLS` tuple: index 0 is `None`, indices 1..6 hold the
six catalog protocols, exactly as in the source. -/
def PROTOCOLS : List (Option Protocol) :=
  [none,
   some ⟨350, 1, 31, 1, 3, 3, 1⟩,
   some ⟨650, 1, 10, 1, 2, 2, 1⟩,
   some ⟨100, 30, 71, 4, 11, 9, 6⟩,
   some ⟨380, 1, 6, 1, 3, 3, 1⟩,
   some ⟨500, 6, 14, 1, 2, 2, 1⟩,
   some ⟨200, 1, 10, 1, 5, 1, 1⟩]

/-- Total lookup into `PROTOCOLS`.  The source only ever dereferences
indices 1..6 (the callback iterates `range(1, len(PROTOCOLS))`), so the
all-zero fallback for index 0 or out-of-range indices is never reached on
the paths the code exercises. -/
def protocolAt (n : Nat) : Protocol :=
  (PROTOCOLS.getD n none).getD ⟨0, 0, 0, 0, 0, 0, 0⟩

/-- The module-level constant `MAX_CHANGES = 67`. -/
def MAX_CHANGES : Nat := 67

/-- The mutable state of an `RFReceiver` instance: the `_timings` buffer,
the capture counters, and the "successful values" fields set on decode.
`changeCount` is a `Nat`: the only decrement in the source
(`self._change_count -= 1`) happens on a path where the counter is
immediately overwritten with 0, and the decremented value is only read
where `-1` and `0` behave identically (empty decode range, `> 6` false),
so saturating subtraction is faithful. -/
structure RxState where
  timings : List Int
  lastTimestamp : Int
  changeCount : Nat
  repeatCount : Nat
  tolerance : Int
  code : Option Nat
  codeTimestamp : Option Int
  bitlength : Option Nat
  pulseLength : Option Int
  proto : Option Nat
  pendingNotify : Nat
deriving Repr, DecidableEq

/-- `RFReceiver.__init__`: `_timings = [0] * (max_changes + 1)`, counters
zeroed, decoded fields `None`. -/
def initReceiver (maxChanges : Nat) (tolerance : Int) : RxState :=
  { timings := List.replicate (maxChanges + 1) 0
    lastTimestamp := 0
    changeCount := 0
    repeatCount := 0
    tolerance := tolerance
    code := none
    codeTimestamp := none
    bitlength := none
    pulseLength := none
    proto := none
    pendingNotify := 0 }

/-- One timing comparison of `_waveform`:
`abs(timing - target) < delay * tolerance / 100`, with the float division
modelled exactly by cross-multiplication. -/
def timingMatches (timing target delay tol : Int) : Bool :=
  100 * |timing - target| < delay * tol

/-- Python `range(start, stop, 2)` as a list. -/
def range2 (start stop : Nat) : List Nat :=
  (List.range ((stop - start + 1) / 2)).map (fun k => start + 2 * k)

/-- One iteration of the decode loop of `_waveform`: match the pair
`(timings[i], timings[i+1])` against the zero pattern, else the one
pattern, else fail.  `code <<= 1` / `code |= 1` become `2 * code` /
`2 * code + 1`.  The early `return False` is modelled by propagating
`none` through the fold. -/
def decodeStep (timings : List Int) (delay tol : Int) (p : Protocol)
    (acc : Option Nat) (i : Nat) : Option Nat :=
  match acc with
  | none => none
  | some code =>
    let tHigh := timings.getD i 0
    let tLow := timings.getD (i + 1) 0
    if timingMatches tHigh (delay * p.zero_high) delay tol &&
        timingMatches tLow (delay * p.zero_low) delay tol then
      some (2 * code)
    else if timingMatches tHigh (delay * p.one_high) delay tol &&
        timingMatches tLow (delay * p.one_low) delay tol then
      some (2 * code + 1)
    else none

/-- `delay = int(self._timings[0] / PROTOCOLS[pnum].sync_low)`. -/
def frameDelay (timings : List Int) (pnum : Nat) : Int :=
  Int.tdiv (timings.getD 0 0) (protocolAt pnum).sync_low

/-- The code-accumulating loop of `_waveform`
(`for i in range(1, change_count, 2)`), returning `none` on the first
mismatching pair. -/
def frameCode (timings : List Int) (tol : Int) (pnum changeCount : Nat) :
    Option Nat :=
  (range2 1 changeCount).foldl
    (decodeStep timings (frameDelay timings pnum) tol (protocolAt pnum))
    (some 0)

/-- `RFReceiver._waveform`.  Returns the Python boolean result together
with the (possibly updated) receiver state.  On success the decoded
fields are set and a notification is scheduled; every failure path of the
source returns `False` without mutating anything. -/
def waveform (s : RxState) (pnum changeCount : Nat) (timestamp : Int) :
    Bool × RxState :=
  match frameCode s.timings s.tolerance pnum changeCount with
  | none => (false, s)
  | some c =>
    if 6 < s.changeCount ∧ c ≠ 0 then
      (true,
        { s with
          code := some c
          codeTimestamp := some timestamp
          bitlength := some (changeCount / 2)
          pulseLength := some (frameDelay s.timings pnum)
          proto := some pnum
          pendingNotify := s.pendingNotify + 1 })
    else (false, s)

/-- The protocol loop of `_callback`
(`for pnum in range(1, len(PROTOCOLS)): if self._waveform(...): break`).
Also returns the list of protocol ids actually tried, in order, so that
the gating behaviour is observable; the state component is exactly what
the source computes. -/
def tryProtocols (changeCount : Nat) (timestamp : Int) :
    RxState → List Nat → RxState × List Nat
  | s, [] => (s, [])
  | s, p :: rest =>
    let r := waveform s p changeCount timestamp
    if r.fst then (r.snd, [p])
    else
      let next := tryProtocols changeCount timestamp r.snd rest
      (next.fst, p :: next.snd)

/-- The `duration > 5000` branch of `_callback`: sync-gap matching,
repeat counting, the decode attempt at `repeat_count == 2`, and the
unconditional `self._change_count = 0` at the end of the branch. -/
def boundary (s : RxState) (timestamp duration : Int) : RxState × List Nat :=
  let r :=
    if |duration - s.timings.getD 0 0| < 200 then
      let s1 := { s with
        repeatCount := s.repeatCount + 1
        changeCount := s.changeCount - 1 }
      if s1.repeatCount = 2 then
        let d := tryProtocols s1.changeCount timestamp s1
          (List.range' 1 (PROTOCOLS.length - 1))
        ({ d.fst with repeatCount := 0 }, d.snd)
      else (s1, [])
    else (s, [])
  ({ r.fst with changeCount := 0 }, r.snd)

/-- `RFReceiver._callback` for one edge at `timestamp`.  The final store
`self._timings[self._change_count] = duration` is bounds-checked: an
out-of-range index is Python's `IndexError`.  The second component is the
list of protocol ids for which a decode attempt was made during this
edge. -/
def callback (s : RxState) (timestamp : Int) :
    Except String (RxState × List Nat) :=
  let duration := timestamp - s.lastTimestamp
  let b := if 5000 < duration then boundary s timestamp duration else (s, [])
  let s2 :=
    if MAX_CHANGES ≤ b.fst.changeCount then
      { b.fst with changeCount := 0, repeatCount := 0 }
    else b.fst
  if s2.changeCount < s2.timings.length then
    Except.ok
      ({ s2 with
          timings := s2.timings.set s2.changeCount duration
          changeCount := s2.changeCount + 1
          lastTimestamp := timestamp }, b.snd)
  else Except.error "IndexError"

/-- Feed a sequence of edge timestamps through `_callback`. -/
def runCallbacks : RxState → List Int → Except String RxState
  | s, [] => Except.ok s
  | s, t :: rest =>
    match callback s t with
    | Except.ok r => runCallbacks r.fst rest
    | Except.error e => Except.error e

/-- The `RFIncomingMessage` value object built by `_notify`. -/
structure RFIncomingMessage where
  code : Option Nat
  codeTimestamp : Option Int
  bitlength : Option Nat
  pulseLength : Option Int
  proto : Option Nat
deriving Repr, DecidableEq

/-- The message `_notify` builds from the receiver's decoded fields. -/
def RxState.toMessage (s : RxState) : RFIncomingMessage :=
  ⟨s.code, s.codeTimestamp, s.bitlength, s.pulseLength, s.proto⟩

/-- A registered listener: `lid` identifies it, `typeName` models
`str(type(listener))`, and `behavior` models the call, which either
returns (`Except.ok`) or raises (`Except.error`). -/
structure Listener where
  lid : Nat
  typeName : List Char
  behavior : RFIncomingMessage → Except String Unit

/-- Does `l` raise when invoked with `m`? -/
def raises (l : Listener) (m : RFIncomingMessage) : Bool :=
  match l.behavior m with
  | Except.error _ => true
  | Except.ok _ => false

/-- The dispatch loop of `RFReceiver._notify`
(`for listener in self.listeners: listener(new_incoming)`): there is no
try/except around the call, so a raising listener aborts the loop and
the exception propagates.  Returns the ids of the listeners that were
actually invoked, in order, and the propagated exception if any. -/
def notifyRun (msg : RFIncomingMessage) :
    List Listener → List Nat × Option String
  | [] => ([], none)
  | l :: rest =>
    match l.behavior msg with
    | Except.ok _ =>
      let r := notifyRun msg rest
      (l.lid :: r.fst, r.snd)
    | Except.error e => ([l.lid], some e)

/-- `startsWithChars pat l`: `pat` is an initial run of `l`. -/
def startsWithChars : List Char → List Char → Bool
  | [], _ => true
  | _ :: _, [] => false
  | p :: ps, c :: cs => p == c && startsWithChars ps cs

/-- `occursIn pat l`: `pat` occurs contiguously somewhere in `l`
(Python's `pat in str`). -/
def occursIn (pat : List Char) : List Char → Bool
  | [] => startsWithChars pat []
  | c :: cs => startsWithChars pat (c :: cs) || occursIn pat cs

/-- The characters of the literal `"function"` tested by
`RFReceiver.add_listener`. -/
def functionChars : List Char := ['f', 'u', 'n', 'c', 't', 'i', 'o', 'n']

/-- `RFReceiver.add_listener`: append the listener iff `"function"` occurs
in `str(type(listener))`; otherwise the registry is left unchanged. -/
def addListener (registry : List Listener) (l : Listener) : List Listener :=
  if occursIn functionChars l.typeName then registry ++ [l] else registry

/-- Generic "iterate until the predicate first holds, keeping that
element too" — the shape of both the protocol loop's break-on-success and
the dispatch loop's abort-on-raise. -/
def takeThrough {α : Type} (p : α → Bool) : List α → List α
  | [] => []
  | x :: xs => if p x then [x] else x :: takeThrough p xs

/-- The mutable state of an `RFTransmitter` instance.  `txPinNumber`
models the dynamic attribute `self.tx_pin_number` read by `enable`: no
statement in the class ever assigns it, so after `__init__` it is absent
(`none`); reading an absent attribute is Python's `AttributeError`.
`pinNumber = 0` models a falsy `pin_number` (`None` or `0`).  The field
`self.repeat` is named `txRepeat` (`repeat` is reserved in Lean). -/
structure TxState where
  pinNumber : Int
  txPinNumber : Option Int
  enabled : Bool
  protoNumber : Nat
  pulseLength : Int
  txRepeat : Nat
  length : Nat
deriving Repr, DecidableEq

/-- `RFTransmitter.enable`: `OSError` on a falsy pin number; otherwise,
when not yet enabled, reads the never-assigned `self.tx_pin_number`. -/
def TxState.enable (s : TxState) : Except String TxState :=
  if s.pinNumber = 0 then Except.error "OSError"
  else if s.enabled then Except.ok s
  else
    match s.txPinNumber with
    | none => Except.error "AttributeError"
    | some _ => Except.ok { s with enabled := true }

/-- `RFTransmitter.__init__`: stores the arguments, takes the catalog
pulse length (overridden by a truthy `pulse_length` argument), and calls
`enable()` when `enable_on_create` is set. -/
def mkRFTransmitter (pinNumber : Int) (protoNumber : Nat) (plArg : Int)
    (rep len : Nat) (enableOnCreate : Bool) : Except String TxState :=
  let s : TxState :=
    { pinNumber := pinNumber
      txPinNumber := none
      enabled := false
      protoNumber := protoNumber
      pulseLength := if plArg ≠ 0 then plArg else (protocolAt protoNumber).pulse_length
      txRepeat := rep
      length := len }
  if enableOnCreate then s.enable else Except.ok s

/-- `RFTransmitter.send_waveform`: when disabled, returns `False` without
touching the pin; otherwise drives the pin high for
`high_pulses * pulse_length` µs and schedules the low phase of
`low_pulses * pulse_length` µs.  The emitted list holds the two segment
durations; emitting them is the observable pin activity. -/
def sendWaveform (s : TxState) (highPulses lowPulses : Int) : Bool × List Int :=
  if s.enabled then
    (true, [highPulses * s.pulseLength, lowPulses * s.pulseLength])
  else (false, [])

/-- The guard `0 < self.proto_number < len(PROTOCOLS)` shared by
`send_l0` / `send_l1` / `send_sync`. -/
def protoInRange (s : TxState) : Bool :=
  decide (0 < s.protoNumber ∧ s.protoNumber < PROTOCOLS.length)

/-- `RFTransmitter.send_l0`. -/
def sendL0 (s : TxState) : Bool × List Int :=
  if protoInRange s then
    sendWaveform s (protocolAt s.protoNumber).zero_high
      (protocolAt s.protoNumber).zero_low
  else (false, [])

/-- `RFTransmitter.send_l1`. -/
def sendL1 (s : TxState) : Bool × List Int :=
  if protoInRange s then
    sendWaveform s (protocolAt s.protoNumber).one_high
      (protocolAt s.protoNumber).one_low
  else (false, [])

/-- `RFTransmitter.send_sync`. -/
def sendSync (s : TxState) : Bool × List Int :=
  if protoInRange s then
    sendWaveform s (protocolAt s.protoNumber).sync_high
      (protocolAt s.protoNumber).sync_low
  else (false, [])

/-- Python `format(code, "b")`: the binary digits of `code`, most
significant first, `"0"` for zero. -/
def pyBin (n : Nat) : List Char := Nat.toDigits 2 n

/-- Left-pad with spaces to width `w` — what the format spec `{0:Wb}`
of `send_code` does (it pads with spaces, not zeros). -/
def spacePad (w : Nat) (l : List Char) : List Char :=
  List.replicate (w - l.length) ' ' ++ l

/-- The `raw_code` rendering of `send_code`:
`"{0:(length+2)b}".format(code)[2:]`. -/
def renderRaw (len code : Nat) : List Char :=
  (spacePad (len + 2) (pyBin code)).drop 2

/-- The protocol-6 line-coding loop of `send_code`: each `'0'` char
contributes `"01"`, each `'1'` char contributes `"10"`, any other char
(in particular a padding space) contributes nothing. -/
def nexaTransform : List Char → List Char
  | [] => []
  | b :: rest =>
    (if b = '0' then ['0', '1'] else []) ++
      (if b = '1' then ['1', '0'] else []) ++ nexaTransform rest

/-- The state updates and `raw_code` computation of
`RFTransmitter.send_code` before `send_binary` is called.  `protoArg`,
`plArg`, `lenArg` equal to `0` model an absent / falsy optional argument
(Python `if proto_number:` etc.). -/
def sendCodePrep (s : TxState) (code : Nat) (protoArg : Nat) (plArg : Int)
    (lenArg : Nat) : TxState × List Char :=
  let s1 := if protoArg ≠ 0 then { s with protoNumber := protoArg } else s
  let s2 := if plArg ≠ 0 then { s1 with pulseLength := plArg } else s1
  let s3 :=
    if lenArg ≠ 0 then { s2 with length := lenArg }
    else if s2.protoNumber = 6 then { s2 with length := 32 }
    else if 16777216 < code then { s2 with length := 32 }
    else { s2 with length := 24 }
  let raw := renderRaw s3.length code
  if s3.protoNumber = 6 then ({ s3 with length := 64 }, nexaTransform raw)
  else (s3, raw)

/-- One step of the inner loop of `send_binary`
(`for byte in range(0, self.length)`): indexing `raw_code[byte]` past the
end is `IndexError`; a `'0'` char sends `send_l0`, anything else sends
`send_l1`; a `False` result stops the loop (the Python `return False`). -/
def sendBitsStep (s : TxState) (raw : List Char)
    (acc : Except String (Bool × List Int)) (i : Nat) :
    Except String (Bool × List Int) :=
  match acc with
  | Except.error e => Except.error e
  | Except.ok (false, ds) => Except.ok (false, ds)
  | Except.ok (true, ds) =>
    match raw.get? i with
    | none => Except.error "IndexError"
    | some c =>
      let r := if c = '0' then sendL0 s else sendL1 s
      Except.ok (r.fst, ds ++ r.snd)

/-- The inner loop of `send_binary` over all `self.length` bit
positions. -/
def sendDataBits (s : TxState) (raw : List Char) :
    Except String (Bool × List Int) :=
  (List.range s.length).foldl (sendBitsStep s raw) (Except.ok (true, []))

/-- One repeat pass of `send_binary`: for protocol 6 a leading sync, then
the data bits, then the trailing sync; any `False` from a sub-send
returns `False` immediately. -/
def sendPass (s : TxState) (raw : List Char) :
    Except String (Bool × List Int) :=
  let pre : Bool × List Int :=
    if s.protoNumber = 6 then sendSync s else (true, [])
  if pre.fst then
    match sendDataBits s raw with
    | Except.error e => Except.error e
    | Except.ok (false, ds) => Except.ok (false, pre.snd ++ ds)
    | Except.ok (true, ds) =>
      let post := sendSync s
      Except.ok (post.fst, pre.snd ++ ds ++ post.snd)
  else Except.ok (false, pre.snd)

/-- `RFTransmitter.send_binary`: the outer `for _ in range(0, self.repeat)`
loop. -/
def sendBinary (s : TxState) (raw : List Char) :
    Nat → Except String (Bool × List Int)
  | 0 => Except.ok (true, [])
  | n + 1 =>
    match sendPass s raw with
    | Except.error e => Except.error e
    | Except.ok (false, ds) => Except.ok (false, ds)
    | Except.ok (true, ds) =>
      match sendBinary s raw n with
      | Except.error e => Except.error e
      | Except.ok r => Except.ok (r.fst, ds ++ r.snd)

/-- `RFTransmitter.send_code`: resolve protocol / pulse length / bit
length, render `raw_code`, apply the protocol-6 transform, and transmit.
Returns the status together with the emitted segment durations.  (The
trailing fixed 500 ms quiet period affects only real time, not the
emitted waveform.) -/
def sendCode (s : TxState) (code : Nat) (protoArg : Nat) (plArg : Int)
    (lenArg : Nat) : Except String (Bool × List Int) :=
  let pr := sendCodePrep s code protoArg plArg lenArg
  sendBinary pr.fst pr.snd pr.fst.txRepeat

/-- An enabled transmitter configured for protocol `pnum` at its catalog
pulse length.  (The stock `enable()` cannot actually succeed — see the
`tx_pin_number` defect — so this models an instance whose attribute was
patched in by hand, which only matters for the pin, not the waveform.) -/
def txFor (pnum rep : Nat) : TxState :=
  { pinNumber := 27
    txPinNumber := some 27
    enabled := true
    protoNumber := pnum
    pulseLength := (protocolAt pnum).pulse_length
    txRepeat := rep
    length := 24 }

/-- Edge timestamps generated by a segment-duration sequence: each
duration separates two consecutive edges. -/
def cumTimestamps (t0 : Int) : List Int → List Int
  | [] => []
  | d :: rest => (t0 + d) :: cumTimestamps (t0 + d) rest

/-- Encode `code` with the transmitter on protocol `pnum` (catalog pulse
length, `rep` repeats) and feed the resulting pulse-duration sequence —
sync gaps included — into a default receiver
(`max_changes = MAX_CHANGES`, `tolerance = 80`), with the first edge at
t = 1 000 000 µs after an idle line.  Returns the receiver's decoded
`code` and `bitlength` fields. -/
def roundTrip (pnum code rep : Nat) : Except String (Option Nat × Option Nat) :=
  match sendCode (txFor pnum rep) code 0 0 0 with
  | Except.error e => Except.error e
  | Except.ok r =>
    match runCallbacks (initReceiver MAX_CHANGES 80)
        (1000000 :: cumTimestamps 1000000 r.snd) with
    | Except.error e => Except.error e
    | Except.ok s => Except.ok (s.code, s.bitlength)

/-- A listener whose call raises (`str(type(...))` contains
`"function"`, so it does get registered). -/
def listenerBoom : Listener := ⟨1, functionChars, fun _ => Except.error "boom"⟩

/-- A listener whose call returns normally. -/
def listenerOk : Listener := ⟨2, functionChars, fun _ => Except.ok ()⟩

/-- An instance of a class defining `__call__`: its
`str(type(listener))` reads `<class Adder>`, which does not contain
`"function"`. -/
def listenerCallable : Listener :=
  ⟨3, ['<', 'c', 'l', 'a', 's', 's', ' ', 'A', 'd', 'd', 'e', 'r', '>'],
   fun _ => Except.ok ()⟩

/-- An empty decoded message (all fields `None`). -/
def msg0 : RFIncomingMessage := ⟨none, none, none, none, none⟩

/-- A transmitter configured for protocol 6 (defaults otherwise). -/
def tx6 : TxState :=
  { pinNumber := 27
    txPinNumber := some 27
    enabled := true
    protoNumber := 6
    pulseLength := 200
    txRepeat := 10
    length := 24 }

/-- A transmitter that was never enabled. -/
def txDisabled : TxState :=
  { pinNumber := 27
    txPinNumber := none
    enabled := false
    protoNumber := 1
    pulseLength := 350
    txRepeat := 10
    length := 24 }

/-- An (otherwise enabled) transmitter whose protocol id 7 is out of the
valid range `[1, len(PROTOCOLS))`. -/
def txBadProto : TxState :=
  { pinNumber := 27
    txPinNumber := some 27
    enabled := true
    protoNumber := 7
    pulseLength := 350
    txRepeat := 10
    length := 24 }

/-! ## Helper lemmas -/

/-- Every failure path of `_waveform` leaves the receiver state
untouched. -/
theorem waveform_fail_eq (s : RxState) (p cc : Nat) (ts : Int)
    (h : (waveform s p cc ts).fst = false) :
    (waveform s p cc ts).snd = s := by
  unfold waveform at h ⊢
  rcases hf : frameCode s.timings s.tolerance p cc with _ | c
  · rfl
  · rw [hf] at h
    dsimp only at h ⊢
    by_cases hc : 6 < s.changeCount ∧ c ≠ 0
    · rw [if_pos hc] at h; exact absurd h (by simp)
    · rw [if_neg hc]

/-- `_waveform` never touches the capture bookkeeping fields. -/
theorem waveform_capture_eq (s : RxState) (p cc : Nat) (ts : Int) :
    (waveform s p cc ts).snd.timings = s.timings ∧
    (waveform s p cc ts).snd.changeCount = s.changeCount ∧
    (waveform s p cc ts).snd.repeatCount = s.repeatCount ∧
    (waveform s p cc ts).snd.tolerance = s.tolerance := by
  unfold waveform
  rcases hf : frameCode s.timings s.tolerance p cc with _ | c
  · exact ⟨rfl, rfl, rfl, rfl⟩
  · dsimp only
    by_cases hc : 6 < s.changeCount ∧ c ≠ 0
    · rw [if_pos hc]; exact ⟨rfl, rfl, rfl, rfl⟩
    · rw [if_neg hc]; exact ⟨rfl, rfl, rfl, rfl⟩

/-- The protocol loop tries ids in order and stops at the first
success: its tried-list is `takeThrough` of the success predicate
evaluated at the entry state. -/
theorem tryProtocols_snd (cc : Nat) (ts : Int) (s : RxState) (l : List Nat) :
    (tryProtocols cc ts s l).snd =
      takeThrough (fun p => (waveform s p cc ts).fst) l := by
  induction l generalizing s with
  | nil => rfl
  | cons p rest ih =>
    unfold tryProtocols takeThrough
    cases hw : (waveform s p cc ts).fst
    · have hs := waveform_fail_eq s p cc ts hw
      simp only [hw, Bool.false_eq_true, if_false]
      rw [hs, ih]
    · simp only [hw, if_true]

/-- The protocol loop never touches the capture bookkeeping fields. -/
theorem tryProtocols_capture_eq (cc : Nat) (ts : Int) (s : RxState)
    (l : List Nat) :
    (tryProtocols cc ts s l).fst.timings = s.timings ∧
    (tryProtocols cc ts s l).fst.changeCount = s.changeCount ∧
    (tryProtocols cc ts s l).fst.tolerance = s.tolerance := by
  induction l generalizing s with
  | nil => exact ⟨rfl, rfl, rfl⟩
  | cons p rest ih =>
    unfold tryProtocols
    have hcap := waveform_capture_eq s p cc ts
    cases hw : (waveform s p cc ts).fst
    · simp only [hw, Bool.false_eq_true, if_false]
      have := ih (waveform s p cc ts).snd
      exact ⟨by rw [this.1, hcap.1], by rw [this.2.1, hcap.2.1],
        by rw [this.2.2, hcap.2.2.2]⟩
    · simp only [hw, if_true]
      exact ⟨hcap.1, hcap.2.1, hcap.2.2.2⟩

/-- `takeThrough` of a nonempty list is nonempty. -/
theorem takeThrough_cons_ne_nil {α : Type} (p : α → Bool) (x : α)
    (xs : List α) : takeThrough p (x :: xs) ≠ [] := by
  unfold takeThrough; split <;> simp

/-- The `duration > 5000` branch never touches the timings buffer or the
tolerance, and always leaves `change_count = 0`. -/
theorem boundary_timings (s : RxState) (ts d : Int) :
    (boundary s ts d).fst.timings = s.timings ∧
    (boundary s ts d).fst.tolerance = s.tolerance ∧
    (boundary s ts d).fst.changeCount = 0 := by
  unfold boundary
  dsimp only
  split
  · split
    · have hc := tryProtocols_capture_eq (s.changeCount - 1) ts
        { s with repeatCount := s.repeatCount + 1,
                 changeCount := s.changeCount - 1 }
        (List.range' 1 (PROTOCOLS.length - 1))
      exact ⟨hc.1, hc.2.2, rfl⟩
    · exact ⟨rfl, rfl, rfl⟩
  · exact ⟨rfl, rfl, rfl⟩

/-- `repeat_count` after the `duration > 5000` branch: incremented on a
sync-gap match, reset to 0 when the decode attempt ran (successful or
not), untouched otherwise. -/
theorem boundary_repeat (s : RxState) (ts d : Int) :
    (boundary s ts d).fst.repeatCount =
      if |d - s.timings.getD 0 0| < 200 then
        (if s.repeatCount + 1 = 2 then 0 else s.repeatCount + 1)
      else s.repeatCount := by
  unfold boundary
  dsimp only
  by_cases h2 : |d - s.timings.getD 0 0| < 200
  · by_cases h3 : s.repeatCount + 1 = 2
    · simp only [if_pos h2, if_pos h3]
    · simp only [if_pos h2, if_neg h3]
  · simp only [if_neg h2]

/-- The protocols for which a decode attempt is made in the
`duration > 5000` branch: none unless the sync gap matches and
`repeat_count` reaches exactly 2; in that case ids 1..6 in order up to
the first success. -/
theorem boundary_snd (s : RxState) (ts d : Int) :
    (boundary s ts d).snd =
      if |d - s.timings.getD 0 0| < 200 ∧ s.repeatCount + 1 = 2 then
        takeThrough
          (fun p => (waveform
            { s with repeatCount := s.repeatCount + 1, changeCount := s.changeCount - 1 }
            p (s.changeCount - 1) ts).fst)
          (List.range' 1 (PROTOCOLS.length - 1))
      else [] := by
  unfold boundary
  dsimp only
  by_cases h2 : |d - s.timings.getD 0 0| < 200
  · by_cases h3 : s.repeatCount + 1 = 2
    · simp only [if_pos h2, if_pos h3, if_pos (And.intro h2 h3)]
      exact tryProtocols_snd _ ts _ _
    · simp only [if_pos h2, if_neg h3,
        if_neg (fun hc : _ ∧ _ => h3 hc.2)]
  · simp only [if_neg h2, if_neg (fun hc : _ ∧ _ => h2 hc.1)]

/-- Setting index 0 makes it the new head. -/
theorem getD_set_zero (l : List Int) (d : Int) (h : 0 < l.length) :
    (l.set 0 d).getD 0 0 = d := by
  cases l with
  | nil => simp at h
  | cons a t => rfl

/-! ## Claim theorems -/

/-- C2: `_waveform` succeeds — returning `True`, setting the
decoded-message fields and scheduling a notification — only if
`change_count > 6` and the accumulated code is nonzero; a frame whose
data pairs all decode to bit 0 (`code == 0`) never produces a decoded
message or a notification; and on any failure no field of the receiver
is updated at all. -/
theorem c2_waveform_gate (s : RxState) (pnum changeCount : Nat) (ts : Int) :
    ((waveform s pnum changeCount ts).fst = true →
      6 < s.changeCount ∧
      ∃ c, frameCode s.timings s.tolerance pnum changeCount = some c ∧
        c ≠ 0 ∧ (waveform s pnum changeCount ts).snd.code = some c ∧
        (waveform s pnum changeCount ts).snd.pendingNotify =
          s.pendingNotify + 1) ∧
    ((waveform s pnum changeCount ts).fst = false →
      (waveform s pnum changeCount ts).snd = s) ∧
    (frameCode s.timings s.tolerance pnum changeCount = some 0 →
      (waveform s pnum changeCount ts).fst = false ∧
      (waveform s pnum changeCount ts).snd = s) := by
  refine ⟨?_, waveform_fail_eq s pnum changeCount ts, ?_⟩
  · intro h
    unfold waveform at h ⊢
    rcases hf : frameCode s.timings s.tolerance pnum changeCount with _ | c
    · rw [hf] at h; exact absurd h (by simp)
    · rw [hf] at h
      dsimp only at h ⊢
      by_cases hc : 6 < s.changeCount ∧ c ≠ 0
      · rw [if_pos hc] at h ⊢
        exact ⟨hc.1, c, rfl, hc.2, rfl, rfl⟩
      · rw [if_neg hc] at h; exact absurd h (by simp)
  · intro hf
    unfold waveform
    rw [hf]
    dsimp only
    rw [if_neg (fun hc : _ ∧ (0 : Nat) ≠ 0 => hc.2 rfl)]
    exact ⟨rfl, rfl⟩

/-- Witness for C2 at a concrete input: the fresh receiver's empty frame
decodes (vacuously) to code 0 under protocol 1, so `_waveform` fails and
leaves the state untouched. -/
theorem c2_witness :
    (waveform (initReceiver MAX_CHANGES 80) 1 0 0).fst = false ∧
    (waveform (initReceiver MAX_CHANGES 80) 1 0 0).snd =
      initReceiver MAX_CHANGES 80 :=
  (c2_waveform_gate (initReceiver MAX_CHANGES 80) 1 0 0).2.2 (by decide)

/-- C6: with `tolerance_window = delay * tolerance / 100` (written as
`w` with `delay * tolerance = 100 * w`, i.e. assuming the window is a
whole number of microseconds as the claim's "window − 1" presupposes),
a timing sample whose absolute deviation from the target
`delay * ratio` is exactly `tolerance_window - 1` passes the decoder's
comparison, while any sample whose deviation is `tolerance_window` or
more fails it. -/
theorem c6_tolerance_boundary (t target delay tol w : Int)
    (hw : 1 ≤ w) (heq : delay * tol = 100 * w) :
    (|t - target| = w - 1 → timingMatches t target delay tol = true) ∧
    (w ≤ |t - target| → timingMatches t target delay tol = false) := by
  have ha : 0 ≤ |t - target| := abs_nonneg _
  constructor <;> intro h <;>
    simp only [timingMatches, heq, decide_eq_true_eq,
      decide_eq_false_iff_not, not_lt] <;>
    omega

/-- Witness for C6 at protocol 1's catalog numbers: `delay = 350`,
`tolerance = 80`, window `280`; deviation 279 from the one-high target
1050 is accepted, deviation 280 is rejected. -/
theorem c6_witness :
    timingMatches 1329 1050 350 80 = true ∧
    timingMatches 1330 1050 350 80 = false :=
  ⟨(c6_tolerance_boundary 1329 1050 350 80 280 (by decide) (by decide)).1
      (by decide),
   (c6_tolerance_boundary 1330 1050 350 80 280 (by decide) (by decide)).2
      (by decide)⟩

/-- C7: under protocol 6, `send_code` doubles every rendered source bit
(`'0' ↦ "01"`, `'1' ↦ "10"`) before transmission and sets the effective
bit length to 64; in particular source bits `"0110"` become
`"01" "10" "10" "01"`, and a bit-only source string of length n maps to
2n output bits. -/
theorem c7_protocol6_line_coding (code : Nat) (bits : List Bool) :
    (sendCodePrep tx6 code 0 0 0).fst.length = 64 ∧
    (sendCodePrep tx6 code 0 0 0).snd = nexaTransform (renderRaw 32 code) ∧
    nexaTransform (bits.map fun b => if b then '1' else '0') =
      (bits.map fun b => if b then ['1', '0'] else ['0', '1']).flatten ∧
    (nexaTransform (bits.map fun b => if b then '1' else '0')).length =
      2 * bits.length ∧
    nexaTransform ['0', '1', '1', '0'] =
      ['0', '1', '1', '0', '1', '0', '0', '1'] := by
  have hmap : ∀ l : List Bool,
      nexaTransform (l.map fun b => if b then '1' else '0') =
        (l.map fun b => if b then ['1', '0'] else ['0', '1']).flatten := by
    intro l
    induction l with
    | nil => rfl
    | cons b rest ih => cases b <;> simp [nexaTransform, ih]
  refine ⟨rfl, rfl, hmap bits, ?_, rfl⟩
  rw [hmap bits]
  induction bits with
  | nil => rfl
  | cons b rest ih => cases b <;> simp [ih] <;> omega

/-- C8: `send_waveform` while disabled returns `False` and never drives
the output pin; `send_l0` / `send_l1` / `send_sync` with a protocol id
outside `[1, len(PROTOCOLS))` return `False` and never drive the pin.
All of these are total returns, not exceptions. -/
theorem c8_transmit_failure (s : TxState) (hi lo : Int) :
    (s.enabled = false → sendWaveform s hi lo = (false, [])) ∧
    (¬(0 < s.protoNumber ∧ s.protoNumber < PROTOCOLS.length) →
      sendL0 s = (false, []) ∧ sendL1 s = (false, []) ∧
      sendSync s = (false, [])) := by
  constructor
  · intro h; simp [sendWaveform, h]
  · intro h
    refine ⟨?_, ?_, ?_⟩ <;>
      simp [sendL0, sendL1, sendSync, protoInRange, h]

/-- Witness for C8: a disabled transmitter and an enabled one with
protocol id 7. -/
theorem c8_witness :
    sendWaveform txDisabled 3 1 = (false, []) ∧
    sendL0 txBadProto = (false, []) :=
  ⟨(c8_transmit_failure txDisabled 3 1).1 rfl,
   ((c8_transmit_failure txBadProto 3 1).2 (by decide)).1⟩

/-- C9: `enable()` reads `self.tx_pin_number`, an attribute never
assigned anywhere in the class, so on any transmitter with a truthy pin
number that is not yet enabled it raises `AttributeError`; consequently
`RFTransmitter.__init__` with the default `enable_on_create=True` (and a
truthy pin) raises instead of returning a usable transmitter. -/
theorem c9_enable_attribute_error (s : TxState) (pin plArg : Int)
    (proto rep len : Nat) :
    (s.pinNumber ≠ 0 → s.enabled = false → s.txPinNumber = none →
      TxState.enable s = Except.error "AttributeError") ∧
    (pin ≠ 0 → mkRFTransmitter pin proto plArg rep len true =
      Except.error "AttributeError") := by
  constructor
  · intro h1 h2 h3
    unfold TxState.enable
    rw [if_neg h1, h2, h3]
    rfl
  · intro h
    unfold mkRFTransmitter TxState.enable
    rw [if_pos rfl, if_neg h]
    rfl

/-- Witness for C9: the stock constructor call with the default pin
raises `AttributeError`. -/
theorem c9_witness :
    mkRFTransmitter 27 1 0 10 24 true = Except.error "AttributeError" :=
  (c9_enable_attribute_error txDisabled 27 0 1 10 24).2 (by decide)

/-- C10: `add_listener` appends the listener to the registry iff the
string `"function"` occurs in `str(type(listener))`; any other callable
(e.g. an instance of a class defining `__call__`) is silently dropped,
the registry is unchanged, and dispatch over the unchanged registry
never invokes it. -/
theorem c10_add_listener (registry : List Listener) (l : Listener)
    (msg : RFIncomingMessage) :
    (occursIn functionChars l.typeName = true →
      addListener registry l = registry ++ [l]) ∧
    (occursIn functionChars l.typeName = false →
      addListener registry l = registry) ∧
    (occursIn functionChars l.typeName = false →
      notifyRun msg (addListener registry l) = notifyRun msg registry) := by
  refine ⟨fun h => ?_, fun h => ?_, fun h => ?_⟩ <;>
    simp [addListener, h]

/-- Witness for C10: a callable-class instance (`str(type(...))` reads
`<class Adder>`) is not registered; a plain function is. -/
theorem c10_witness :
    addListener [] listenerCallable = [] ∧
    addListener [] listenerOk = [listenerOk] :=
  ⟨(c10_add_listener [] listenerCallable msg0).2.1 (by decide),
   (c10_add_listener [] listenerOk msg0).1 (by decide)⟩

/-- C3: in any edge-callback step (on a frame buffer at least
`MAX_CHANGES` long, as every receiver the constructor builds from
`max_changes ≥ MAX_CHANGES` has), a decode attempt happens iff the edge
closes a long gap (`duration > 5000`) matching the recorded sync gap
within 200 µs and `repeat_count` thereby reaches exactly 2 — so a single
long-gap frame (`repeat_count == 1`) never triggers one; when the attempt
runs, protocol ids 1..6 are tried in order stopping at the first
success, and `repeat_count` is 0 afterwards whether or not any protocol
succeeded. -/
theorem c3_repeat_gating (s : RxState) (ts : Int)
    (hlen : MAX_CHANGES ≤ s.timings.length) :
    ∃ s' tried, callback s ts = Except.ok (s', tried) ∧
      (tried ≠ [] ↔ (5000 < ts - s.lastTimestamp ∧
        |ts - s.lastTimestamp - s.timings.getD 0 0| < 200 ∧
        s.repeatCount + 1 = 2)) ∧
      ((5000 < ts - s.lastTimestamp ∧
        |ts - s.lastTimestamp - s.timings.getD 0 0| < 200 ∧
        s.repeatCount + 1 = 2) →
        tried = takeThrough
          (fun p => (waveform
            { s with repeatCount := s.repeatCount + 1, changeCount := s.changeCount - 1 }
            p (s.changeCount - 1) ts).fst)
          (List.range' 1 (PROTOCOLS.length - 1)) ∧
        s'.repeatCount = 0) := by
  by_cases h1 : 5000 < ts - s.lastTimestamp
  · have hbt := boundary_timings s ts (ts - s.lastTimestamp)
    have hbs := boundary_snd s ts (ts - s.lastTimestamp)
    have hbr := boundary_repeat s ts (ts - s.lastTimestamp)
    unfold callback
    dsimp only
    rw [if_pos h1]
    have hguard :
        ¬ MAX_CHANGES ≤ (boundary s ts (ts - s.lastTimestamp)).fst.changeCount := by
      rw [hbt.2.2]; decide
    rw [if_neg hguard]
    have hlt : (boundary s ts (ts - s.lastTimestamp)).fst.changeCount <
        (boundary s ts (ts - s.lastTimestamp)).fst.timings.length := by
      rw [hbt.2.2, hbt.1]
      unfold MAX_CHANGES at hlen
      omega
    rw [if_pos hlt]
    refine ⟨_, _, rfl, ?_, ?_⟩
    · rw [hbs]
      by_cases hcond : |ts - s.lastTimestamp - s.timings.getD 0 0| < 200 ∧
          s.repeatCount + 1 = 2
      · rw [if_pos hcond]
        have hr : List.range' 1 (PROTOCOLS.length - 1) =
            1 :: List.range' 2 5 := rfl
        constructor
        · intro _; exact ⟨h1, hcond.1, hcond.2⟩
        · intro _; rw [hr]; exact takeThrough_cons_ne_nil _ _ _
      · rw [if_neg hcond]
        constructor
        · intro hne; exact (hne rfl).elim
        · rintro ⟨-, hc2, hc3⟩; exact (hcond ⟨hc2, hc3⟩).elim
    · intro hcond
      refine ⟨?_, ?_⟩
      · rw [hbs, if_pos ⟨hcond.2.1, hcond.2.2⟩]
      · show (boundary s ts (ts - s.lastTimestamp)).fst.repeatCount = 0
        rw [hbr, if_pos hcond.2.1, if_pos hcond.2.2]
  · unfold callback
    dsimp only
    rw [if_neg h1]
    by_cases hg : MAX_CHANGES ≤ s.changeCount
    · rw [if_pos hg]
      have hlt : (0 : Nat) < s.timings.length := by
        unfold MAX_CHANGES at hlen; omega
      rw [if_pos hlt]
      refine ⟨_, [], rfl, ?_, fun hcond => (h1 hcond.1).elim⟩
      constructor
      · intro hne; exact (hne rfl).elim
      · rintro ⟨hc1, -, -⟩; exact (h1 hc1).elim
    · rw [if_neg hg]
      have hlt : s.changeCount < s.timings.length := by
        unfold MAX_CHANGES at hlen hg; omega
      rw [if_pos hlt]
      refine ⟨_, [], rfl, ?_, fun hcond => (h1 hcond.1).elim⟩
      constructor
      · intro hne; exact (hne rfl).elim
      · rintro ⟨hc1, -, -⟩; exact (h1 hc1).elim

/-- Witness for C3: a fresh default receiver processing its first edge
(a long gap with no recorded sync) makes no decode attempt. -/
theorem c3_witness :
    callback (initReceiver MAX_CHANGES 80) 1000000 =
      Except.ok
        ({ initReceiver MAX_CHANGES 80 with
            timings := (List.replicate 68 (0 : Int)).set 0 1000000
            changeCount := 1
            lastTimestamp := 1000000 }, []) := by
  obtain ⟨s', tried, h1, -, -⟩ :=
    c3_repeat_gating (initReceiver MAX_CHANGES 80) 1000000 (by decide)
  exact rfl

/-- C5 (amended): on any receiver whose timings buffer is at least
`MAX_CHANGES` entries long — which holds for the default
`max_changes = MAX_CHANGES` but not for smaller constructor arguments,
since the overflow guard compares against the global `MAX_CHANGES`
rather than the instance capacity — the callback never throws (every
store is in bounds), the buffer length is preserved, `change_count`
stays bounded, and when a non-gap edge arrives with the counter at the
guard threshold the frame is discarded: both counters reset (the new
edge is stored at index 0 and counted, so capture resumes with
`change_count = 1`). -/
theorem c5_overflow_guard (s : RxState) (ts : Int)
    (hlen : MAX_CHANGES ≤ s.timings.length) :
    ∃ s' tried, callback s ts = Except.ok (s', tried) ∧
      s'.timings.length = s.timings.length ∧
      s'.changeCount ≤ MAX_CHANGES ∧
      (¬ 5000 < ts - s.lastTimestamp → MAX_CHANGES ≤ s.changeCount →
        s'.changeCount = 1 ∧ s'.repeatCount = 0 ∧
        s'.timings.getD 0 0 = ts - s.lastTimestamp) := by
  by_cases h1 : 5000 < ts - s.lastTimestamp
  · have hbt := boundary_timings s ts (ts - s.lastTimestamp)
    unfold callback
    dsimp only
    rw [if_pos h1]
    have hguard :
        ¬ MAX_CHANGES ≤ (boundary s ts (ts - s.lastTimestamp)).fst.changeCount := by
      rw [hbt.2.2]; decide
    rw [if_neg hguard]
    have hlt : (boundary s ts (ts - s.lastTimestamp)).fst.changeCount <
        (boundary s ts (ts - s.lastTimestamp)).fst.timings.length := by
      rw [hbt.2.2, hbt.1]
      unfold MAX_CHANGES at hlen
      omega
    rw [if_pos hlt]
    refine ⟨_, _, rfl, ?_, ?_, fun hc => (hc h1).elim⟩
    · dsimp only
      rw [List.length_set, hbt.1]
    · show (boundary s ts (ts - s.lastTimestamp)).fst.changeCount + 1 ≤ MAX_CHANGES
      rw [hbt.2.2]; decide
  · unfold callback
    dsimp only
    rw [if_neg h1]
    by_cases hg : MAX_CHANGES ≤ s.changeCount
    · rw [if_pos hg]
      have h0 : (0 : Nat) < s.timings.length := by
        unfold MAX_CHANGES at hlen; omega
      rw [if_pos h0]
      refine ⟨_, [], rfl, ?_, ?_, ?_⟩
      · dsimp only
        rw [List.length_set]
      · show (0 : Nat) + 1 ≤ MAX_CHANGES
        decide
      · intro _ _
        exact ⟨rfl, rfl, getD_set_zero s.timings _ h0⟩
    · rw [if_neg hg]
      have hlt : s.changeCount < s.timings.length := by
        unfold MAX_CHANGES at hlen hg; omega
      rw [if_pos hlt]
      refine ⟨_, [], rfl, ?_, ?_, fun _ hc => (hg hc).elim⟩
      · dsimp only
        rw [List.length_set]
      · show s.changeCount + 1 ≤ MAX_CHANGES
        unfold MAX_CHANGES at hg ⊢; omega

/-- Witness for C5: one default-receiver edge step, applying the theorem
at a concrete state with the counter at the guard threshold. -/
theorem c5_witness :
    ∃ s' tried,
      callback { initReceiver MAX_CHANGES 80 with
                  changeCount := MAX_CHANGES, lastTimestamp := 999900 } 1000000 =
        Except.ok (s', tried) ∧
      s'.changeCount = 1 ∧ s'.repeatCount = 0 ∧
      s'.timings.getD 0 0 = 100 := by
  obtain ⟨s', tried, h1, -, -, h4⟩ :=
    c5_overflow_guard
      { initReceiver MAX_CHANGES 80 with
          changeCount := MAX_CHANGES, lastTimestamp := 999900 } 1000000
      (by decide)
  obtain ⟨ha, hb, hc⟩ := h4 (by decide) (by decide)
  exact ⟨s', tried, h1, ha, hb, hc⟩

/-- C5 counterexample: a receiver constructed with `max_changes = 5` has
a 6-entry buffer, but the overflow guard still compares against the
global `MAX_CHANGES = 67`, so the seventh stored edge raises
`IndexError` instead of discarding the frame. -/
theorem c5_counterexample :
    runCallbacks (initReceiver 5 80)
      [1000000, 1000100, 1000200, 1000300, 1000400, 1000500, 1000600] =
      Except.error "IndexError" := rfl

/-- C4 (amended): `_notify` invokes the registered listeners in
registration order, passing each one the same message, but only up to
and including the first listener that raises: there is no per-listener
exception handling in the dispatch loop, so that listener's exception
propagates and the remaining listeners are not invoked.  No exception
propagates iff no invoked listener raises. -/
theorem c4_notify_dispatch (msg : RFIncomingMessage) (ls : List Listener) :
    (notifyRun msg ls).fst =
      (takeThrough (fun l => raises l msg) ls).map Listener.lid ∧
    ((notifyRun msg ls).snd = none ↔ ∀ l ∈ ls, raises l msg = false) := by
  induction ls with
  | nil => simp [notifyRun, takeThrough]
  | cons l rest ih =>
    unfold notifyRun takeThrough
    cases hb : l.behavior msg with
    | ok u =>
      have hr : raises l msg = false := by unfold raises; rw [hb]
      simp only [hr, Bool.false_eq_true, if_false, List.map_cons]
      refine ⟨by rw [ih.1], ?_⟩
      simp only [List.mem_cons]
      constructor
      · intro hn x hx
        rcases hx with hx | hx
        · rw [hx]; exact hr
        · exact (ih.2.mp hn) x hx
      · intro hall
        exact ih.2.mpr (fun x hx => hall x (Or.inr hx))
    | error e =>
      have hr : raises l msg = true := by unfold raises; rw [hb]
      simp only [hr, if_true, List.map_cons, List.map_nil]
      refine ⟨by simp, ?_⟩
      constructor
      · intro hn; exact absurd hn (by simp)
      · intro hall
        have := hall l (by simp)
        rw [hr] at this
        exact absurd this (by simp)

/-- C4 counterexample: with two registered listeners where the first
raises, the second (id 2) is never invoked — the loop aborts and the
exception propagates, contradicting the claim that remaining listeners
still run. -/
theorem c4_counterexample :
    (notifyRun msg0 [listenerBoom, listenerOk]).fst = [1] ∧
    2 ∉ (notifyRun msg0 [listenerBoom, listenerOk]).fst ∧
    (notifyRun msg0 [listenerBoom, listenerOk]).snd = some "boom" := by
  refine ⟨rfl, ?_, rfl⟩
  decide

set_option maxRecDepth 100000 in
/-- C1 counterexample: protocol 1, code `0x1`.  `send_code` renders the
code space-padded (the format spec `{0:26b}` pads with spaces, not
zeros), `send_binary` transmits every non-'0' character — including each
padding space — as a one bit, so the receiver decodes `0xFFFFFF`
instead of `0x1`: the round trip does not reproduce the original code. -/
theorem c1_counterexample :
    roundTrip 1 1 3 = Except.ok (some 16777215, some 24) ∧
    (16777215 : Nat) ≠ 1 :=
  ⟨rfl, by decide⟩

set_option maxRecDepth 100000 in
/-- C1 (amended): the encode→decode round trip reproduces the original
code and bit length for the protocols whose catalog sync gap exceeds the
5000 µs frame threshold (ids 1, 2, 3 and 5 — ids 4 and 6 never decode)
and for codes whose binary rendering exactly fills the effective bit
length (most significant bit set), such as `0xA5A5A5`, `0xFFFFFF` and
the 32-bit-width `0xA5A5A5A5`; codes with leading zero bits (including
`0x0` and `0x1`) are mangled by the space-padding, and a decoded
protocol id may differ from the transmitting one (e.g. protocol 2's
decoder accepts protocol 3 and 5 waveforms first), but code and
bit length are reproduced. -/
theorem c1_roundtrip_amended :
    roundTrip 1 0xA5A5A5 3 = Except.ok (some 0xA5A5A5, some 24) ∧
    roundTrip 2 0xA5A5A5 3 = Except.ok (some 0xA5A5A5, some 24) ∧
    roundTrip 3 0xA5A5A5 3 = Except.ok (some 0xA5A5A5, some 24) ∧
    roundTrip 5 0xA5A5A5 3 = Except.ok (some 0xA5A5A5, some 24) ∧
    roundTrip 1 0xFFFFFF 3 = Except.ok (some 0xFFFFFF, some 24) ∧
    roundTrip 2 0xFFFFFF 3 = Except.ok (some 0xFFFFFF, some 24) ∧
    roundTrip 3 0xFFFFFF 3 = Except.ok (some 0xFFFFFF, some 24) ∧
    roundTrip 5 0xFFFFFF 3 = Except.ok (some 0xFFFFFF, some 24) ∧
    roundTrip 1 0xA5A5A5A5 3 = Except.ok (some 0xA5A5A5A5, some 32) ∧
    roundTrip 2 0xA5A5A5A5 3 = Except.ok (some 0xA5A5A5A5, some 32) ∧
    roundTrip 3 0xA5A5A5A5 3 = Except.ok (some 0xA5A5A5A5, some 32) ∧
    roundTrip 5 0xA5A5A5A5 3 = Except.ok (some 0xA5A5A5A5, some 32) :=
  ⟨rfl, rfl, rfl, rfl, rfl, rfl, rfl, rfl, rfl, rfl, rfl, rfl⟩

end RF433
